import Mathlib

/-!
Shallow embedding of `src/medusa/core/ensemble.py` (the Medusa ensemble
module) and verification of the specification's claims about it.

Modelling conventions:

* The cobra collaborator is modelled minimally: a reaction is an identifier
  plus `lower_bound`/`upper_bound` (integers: the spec demands exact numeric
  equality and every scenario uses integral bounds), a model is an identifier
  plus an ordered reaction list.  `Reaction.copy` and `CModel.copy` are the
  identity on these pure values; `Model.repair` is a no-op.
* Python objects reaching `__init__` need not be models, so list elements are
  `PyObj`: either a wrapped model or a non-model object.  Attribute access on
  a non-model raises `AttributeError`, modelled through `Except`.
* Python exceptions are the `Err` type; a function that can raise returns
  `Except Err _`.  `update_features_states`, which mutates its ensemble
  argument in place, is embedded as a function returning the final state of
  that object together with the raised exception (if any), so that "the
  object is unchanged when an exception escapes" is a provable property and
  not an artifact of the embedding.
* The pandas features frame (columns `lower_bound`, `upper_bound`, `type`,
  `model_identifier`, `feature_count`, index = feature id) is a `List
  Feature`; the states frame is a `States` value (ordered column labels plus
  rows of cells).  The pandas operations used by the source (concat,
  `duplicated` on the column set minus `feature_count`, `groupby.cumcount`,
  index reassignment, `fillna(False)`, positional column rename) are embedded
  literally on these representations.
* The source file contains two `__init__` definitions for `Ensemble`; Python
  keeps only the second one (line 112), so the embedding implements that one.
  The first `__init__` (line 43) and its isinstance check are dead code.
-/

/-- Python exceptions that the embedded code can raise. -/
inductive Err where
  | valueError (msg : String)
  | attributeError (msg : String)
  | keyError (msg : String)
  | typeError (msg : String)
  | zeroDivisionError
deriving DecidableEq, Repr

/-- A cobra reaction: identifier and flux bounds. -/
structure Reaction where
  id : String
  lower_bound : Int
  upper_bound : Int
deriving DecidableEq, Repr

/-- A cobra model: identifier and its reactions, in order. -/
structure CModel where
  id : String
  reactions : List Reaction
deriving DecidableEq, Repr

/-- An arbitrary Python object handed to the constructor: either a cobra
model or some non-model object. -/
inductive PyObj where
  | mkModel (m : CModel)
  | other
deriving DecidableEq, Repr

/-- Attribute access `x.reactions`; raises `AttributeError` on a non-model. -/
def PyObj.reactionsAttr : PyObj → Except Err (List Reaction)
  | .mkModel m => .ok m.reactions
  | .other => .error (.attributeError "reactions")

/-- Attribute access `x.id`; raises `AttributeError` on a non-model. -/
def PyObj.idAttr : PyObj → Except Err String
  | .mkModel m => .ok m.id
  | .other => .error (.attributeError "id")

/-- The reaction identifiers of a model, in order (duplicates possible). -/
def CModel.reactionIds (m : CModel) : List String :=
  m.reactions.map (fun r => r.id)

/-- A row of the features frame without its index and `feature_count`
column: exactly the column set the source compares when deduplicating
(`new_df.columns.difference(['feature_count'])`). -/
structure FRow where
  lower_bound : Int
  upper_bound : Int
  type : String
  model_identifier : String
deriving DecidableEq, Repr

/-- A full row of the features frame: index label, the compared columns and
the `feature_count` column. -/
structure Feature where
  label : String
  row : FRow
  feature_count : Nat
deriving DecidableEq, Repr

/-- The states frame: ordered column labels (feature ids) and rows (member
identifier plus one boolean cell per column, positionally aligned). -/
structure States where
  columns : List String
  rows : List (String × List Bool)
deriving DecidableEq, Repr

/-- An empty states frame (`pd.DataFrame()`). -/
def emptyStates : States := ⟨[], []⟩

/-- Value of one cell of a row, looked up by column label; missing labels
read as false (the frames only ever carry false for absent cells, via
`fillna(False)`). -/
def getCell : List String → List Bool → String → Bool
  | c :: cs, b :: bs, col => if c == col then b else getCell cs bs col
  | _, _, _ => false

/-- Cell of the states frame at a member row and feature column. -/
def States.get (s : States) (member : String) (col : String) : Bool :=
  match s.rows.find? (fun r => r.1 == member) with
  | none => false
  | some (_, cells) => getCell s.columns cells col

/-- Embedding of `pd.concat([states, model_states])` followed by
`fillna(False)`, where `model_states` is a single new member row with the
given columns and cells: existing rows are padded with false on the columns
they lack, and the new row reads false at columns it lacks. -/
def States.appendRow (s : States) (member : String) (newCols : List String)
    (newCells : List Bool) : States :=
  let extra := newCols.filter (fun c => !(s.columns.contains c))
  let cols' := s.columns ++ extra
  let newRow := cols'.map (fun c => getCell newCols newCells c)
  ⟨cols', s.rows.map (fun r => (r.1, r.2 ++ List.replicate extra.length false))
      ++ [(member, newRow)]⟩

/-- Embedding of `states.join(model_states, how='outer')` where
`model_states` is a single all-True row.  On every path the source reaches,
`states` is the empty frame, so the join is just that row; the general shape
(padding with false, merging an existing member row) is kept for fidelity of
form. -/
def States.joinOuterTrueRow (s : States) (member : String)
    (cols : List String) : States :=
  if s.rows.any (fun r => r.1 == member) then
    ⟨s.columns ++ cols,
      s.rows.map (fun r => (r.1, r.2 ++ List.replicate cols.length (r.1 == member)))⟩
  else
    ⟨s.columns ++ cols,
      s.rows.map (fun r => (r.1, r.2 ++ List.replicate cols.length false))
        ++ [(member, List.replicate s.columns.length false ++ List.replicate cols.length true)]⟩

/-- Embedding of the positional column rename
`ensemble.states.columns = ensemble.features.index`; pandas raises
`ValueError` when the lengths disagree. -/
def States.setColumnsPositional (s : States) (labels : List String) :
    Except Err States :=
  if labels.length == s.columns.length then .ok ⟨labels, s.rows⟩
  else .error (.valueError "Length mismatch")

/-- The ensemble object: identifier, base model, features frame, states
frame.  `base_model` is a `PyObj` because `set_features_states` assigns
`model_list[0]` to it unchecked. -/
structure Ensemble where
  id : String
  base_model : PyObj
  features : List Feature
  states : States
deriving DecidableEq, Repr

/-- The ensemble produced for an empty or absent model list: fresh empty
base model named after the ensemble, empty features and states frames. -/
def emptyEnsemble (base_id : String) : Ensemble :=
  ⟨base_id, .mkModel ⟨base_id ++ "_base_model", []⟩, [], emptyStates⟩

/-- Worker for `dedupKeepFirst`: drop elements already seen. -/
def dedupKeepFirstAux {α : Type} [DecidableEq α] (seen : List α) :
    List α → List α
  | [] => []
  | x :: xs =>
    if seen.contains x then dedupKeepFirstAux seen xs
    else x :: dedupKeepFirstAux (seen ++ [x]) xs

/-- Keep the first occurrence of every element, dropping later duplicates:
the effect of `new_df[~new_df.duplicated(cols)]` with `keep='first'`. -/
def dedupKeepFirst {α : Type} [DecidableEq α] (l : List α) : List α :=
  dedupKeepFirstAux [] l

/-- Worker for `dedupById`: drop reactions whose id was already seen. -/
def dedupByIdAux (seen : List String) : List Reaction → List Reaction
  | [] => []
  | r :: rs =>
    if seen.contains r.id then dedupByIdAux seen rs
    else r :: dedupByIdAux (seen ++ [r.id]) rs

/-- Keep, per reaction identifier, the first reaction carrying it: the
effect of building the `variable_reactions` dict keyed by `reaction.id`. -/
def dedupById (l : List Reaction) : List Reaction :=
  dedupByIdAux [] l

/-- Embedding of the reaction-set loop of `set_features_states`: starting
from the empty set, for each model intersect with its reaction-id set
unless the accumulator is still empty, in which case assign it.  (The
source's quirk for models with no reactions is preserved: an empty first
model leaves the accumulator empty and the next model's set replaces it.) -/
def interFold : List PyObj → List String → Except Err (List String)
  | [], acc => .ok acc
  | m :: rest, acc => do
    let rxns ← m.reactionsAttr
    let s := dedupKeepFirst (rxns.map (fun r => r.id))
    interFold rest (if acc.isEmpty then s else acc.filter (fun x => s.contains x))

/-- Worker for `_create_base_model`: for each model in turn, append the
reactions whose identifier the running base does not yet contain. -/
def addModelsToBase : List PyObj → CModel → Except Err CModel
  | [], base => .ok base
  | m :: rest, base => do
    let rxns ← m.reactionsAttr
    let toAdd := rxns.filter
      (fun r => !(base.reactions.any (fun b => b.id == r.id)))
    addModelsToBase rest ⟨base.id, base.reactions ++ toAdd⟩

/-- Embedding of `Ensemble._create_base_model`: a fresh model holding every
reaction present in any input model, borrowed from the first contributor
(`base_model.repair()` is a no-op on pure values). -/
def create_base_model (model_list : List PyObj) (base_id : String) :
    Except Err CModel :=
  addModelsToBase model_list ⟨base_id, []⟩

/-- Embedding of `groupby('model_identifier').cumcount()` followed by the
index reassignment `model_identifier + '_' + feature_count`: each row's
count is the number of earlier rows sharing its `model_identifier`. -/
def assignLabels (rows : List FRow) : List Feature :=
  go [] rows
where
  /-- Label the remaining rows given the rows already passed. -/
  go (prev : List FRow) : List FRow → List Feature
  | [] => []
  | r :: rest =>
    let cnt := (prev.filter
      (fun p => p.model_identifier == r.model_identifier)).length
    ⟨r.model_identifier ++ "_" ++ toString cnt, r, cnt⟩ :: go (prev ++ [r]) rest

/-- Number of occurrences of a row among all concatenated rows; a row is
marked by `duplicated(keep=False)` exactly when this count is at least 2. -/
def countRow (rows : List FRow) (r : FRow) : Nat :=
  (rows.filter (fun x => x == r)).length

/-- The features/states computation of the per-model body of the
`for model in model_list` loop of `set_features_states`.  `reaction_list`
is the intersection of all models' reaction ids; rows are built for this
model's reactions outside it. -/
def processModelFS (reaction_list : List String) (features : List Feature)
    (states : States) (mobj : PyObj) :
    Except Err (List Feature × States) := do
  let rxns ← mobj.reactionsAttr
  let mid ← mobj.idAttr
  let reactions_different := rxns.filter
    (fun r => !(reaction_list.contains r.id))
  let variable_rows : List FRow := (dedupById reactions_different).map
    (fun r => ⟨r.lower_bound, r.upper_bound, "reaction", r.id⟩)
  if features.length > 0 then
    -- pd.concat([ensemble.features, features]) and the dedup/relabel dance
    let allRows := features.map (fun f => f.row) ++ variable_rows
    let keptRows := dedupKeepFirst allRows
    let oldLabels := features.map (fun f => f.label)
    let newFeatures := assignLabels keptRows
    -- in_new_model: duplicated(keep=False) on the concatenated frame, then
    -- forced True for index labels absent from the previous features index
    let inNew := newFeatures.map (fun f =>
      if !(oldLabels.contains f.label) then true else decide (countRow allRows f.row ≥ 2))
    let states' := states.appendRow mid (newFeatures.map (fun f => f.label)) inNew
    .ok (newFeatures, states')
  else
    -- first contributing model: features frame assigned directly
    if variable_rows.isEmpty then
      -- pd.DataFrame({}).T has no 'model_identifier' column to index by
      .error (.keyError "model_identifier")
    else
      let newFeatures := variable_rows.map
        (fun r => ⟨r.model_identifier ++ "_0", r, 0⟩)
      let joined := states.joinOuterTrueRow mid
        (variable_rows.map (fun r => r.model_identifier))
      let states' ← joined.setColumnsPositional (newFeatures.map (fun f => f.label))
      .ok (newFeatures, states')

/-- Per-model body of the `for model in model_list` loop of
`set_features_states`: the loop body only ever assigns `ensemble.features`
and `ensemble.states`, never the base model. -/
def processModel (reaction_list : List String) (ens : Ensemble)
    (mobj : PyObj) : Except Err Ensemble :=
  match processModelFS reaction_list ens.features ens.states mobj with
  | .error e => .error e
  | .ok (f, s) => .ok { ens with features := f, states := s }

/-- Embedding of `set_features_states`.  A one-model list resets the frames
and aliases the base model to that single list element; otherwise every
model is folded through `processModel` against the id intersection. -/
def set_features_states (ens : Ensemble) (model_list : List PyObj) :
    Except Err Ensemble :=
  match model_list with
  | [x] => .ok { ens with features := [], states := emptyStates, base_model := x }
  | xs => do
    let reaction_list ← interFold xs []
    xs.foldlM (processModel reaction_list) ens

/-- Embedding of the `not model_list` test of `__init__` (true for `None`
and for the empty list). -/
def emptyModelList : Option (List PyObj) → Bool
  | none => true
  | some [] => true
  | some (_ :: _) => false

/-- Embedding of `Ensemble.__init__` restricted to its default
(`join_method="concurrent"`) behaviour, which is also exactly what the two
inner `Ensemble(...)` calls of `update_features_states` perform: build the
base model, then run `set_features_states`. -/
def ensembleInitCore (base_id : String) (model_list : Option (List PyObj)) :
    Except Err Ensemble :=
  if emptyModelList model_list then .ok (emptyEnsemble base_id)
  else do
    let L := model_list.getD []
    let base ← create_base_model L (base_id ++ "_base_model")
    set_features_states ⟨base_id, .mkModel base, [], emptyStates⟩ L

/-- Embedding of `update_features_states(old_ensemble, model_list)`,
returning the final state of the mutated `old_ensemble` object together
with the exception that escaped, if any.  With no features yet the ensemble
is rebuilt from `[old.base_model] + model_list` and the three attributes
are reassigned; otherwise a throwaway ensemble is built from the batch, the
base models' reaction-id sets are intersected, and the body of the loop
over shared reactions immediately evaluates
`old_ensemble.features['model_identifer']` — a misspelled column name the
features frame does not have, hence `KeyError` whenever the intersection is
nonempty.  (Line 303 iterates `old_ensemble.base_model` itself; per the
collaborator contract this enumerates its reactions.)  No branch of the
nonempty-features path ever assigns back to the ensemble: the helpers only
fill local copies, so the object is returned unchanged when no exception is
raised. -/
def update_features_states (old : Ensemble) (model_list : List PyObj) :
    Ensemble × Option Err :=
  if old.features.length < 1 then
    match ensembleInitCore old.id (some (old.base_model :: model_list)) with
    | .error e => (old, some e)
    | .ok ne =>
      ({ old with base_model := ne.base_model, features := ne.features, states := ne.states }, none)
  else
    match ensembleInitCore "new_models" (some model_list) with
    | .error e => (old, some e)
    | .ok ne =>
      match old.base_model with
      | .other => (old, some (.attributeError "copy"))
      | .mkModel oldBase =>
        match ne.base_model with
        | .other => (old, some (.attributeError "iteration"))
        | .mkModel newBase =>
          let old_reactions := oldBase.reactionIds
          let new_reactions := newBase.reactionIds
          if old_reactions.any (fun r => new_reactions.contains r) then
            (old, some (.keyError "model_identifer"))
          else (old, none)

/-- `update_features_states` as an `Except` computation, for use inside the
iterative construction loop (an escaping exception aborts the caller). -/
def update_features_states_ex (old : Ensemble) (model_list : List PyObj) :
    Except Err Ensemble :=
  match update_features_states old model_list with
  | (e, none) => .ok e
  | (_, some err) => .error err

/-- Python slice `L[a:b]` for nonnegative `a`, `b`. -/
def pySlice {α : Type} (L : List α) (a b : Nat) : List α :=
  (L.drop a).take (b - a)

/-- Embedding of the effective `Ensemble.__init__` (the second definition,
line 112): validate `join_method`, initialise empty frames, then build
either concurrently or iteratively.  The iterative loop reproduces the
source's slicing arithmetic, including the unparenthesised bound
`i + 2*join_size`. -/
def ensembleInit (base_id : String) (model_list : Option (List PyObj))
    (join_method : String) (join_size : Nat) : Except Err Ensemble :=
  if !(join_method == "concurrent" || join_method == "iterative") then
    .error (.valueError "join_method must be either concurrent or iterative")
  else if emptyModelList model_list then .ok (emptyEnsemble base_id)
  else if join_method == "concurrent" then ensembleInitCore base_id model_list
  else do
    let L := model_list.getD []
    let e0 := emptyEnsemble base_id
    let e1 ← set_features_states e0 (L.take join_size)
    if join_size == 0 then .error .zeroDivisionError
    else
      let remainder := L.length % join_size
      let steps := L.length / join_size
      let e2 ← (List.range steps).foldlM
        (fun e i => update_features_states_ex e
          (pySlice L ((i + 1) * join_size) (i + 2 * join_size))) e1
      if remainder > 0 then
        update_features_states_ex e2 (L.drop (L.length - remainder))
      else .ok e2

/-- Reaction identifiers of an ensemble's base model (empty for a non-model
base object). -/
def Ensemble.baseIds (e : Ensemble) : List String :=
  match e.base_model with
  | .mkModel b => b.reactionIds
  | .other => []

/-- Mutual-exclusivity check over an ensemble: no member row is true at two
features with distinct labels but the same `model_identifier`. -/
def Ensemble.statesExclusive (e : Ensemble) : Bool :=
  e.states.rows.all (fun row =>
    e.features.all (fun f => e.features.all (fun g =>
      f.label == g.label
        || !(f.row.model_identifier == g.row.model_identifier)
        || !(e.states.get row.1 f.label)
        || !(e.states.get row.1 g.label))))

/-! Concrete models used by the claims' scenarios. -/

/-- Wrap a cobra model as a Python object. -/
def pj (m : CModel) : PyObj := .mkModel m

/-- First single-reaction model of the spec's concrete scenario: `R1` with
bounds (0, 10). -/
def sc_m1 : CModel := ⟨"m1", [⟨"R1", 0, 10⟩]⟩

/-- Second single-reaction model of the spec's concrete scenario: `R1` with
bounds (0, 10). -/
def sc_m2 : CModel := ⟨"m2", [⟨"R1", 0, 10⟩]⟩

/-- Third single-reaction model of the spec's concrete scenario: `R1` with
bounds (0, 20). -/
def sc_m3 : CModel := ⟨"m3", [⟨"R1", 0, 20⟩]⟩

/-- A model with reactions `R1` and `R2`; its `R2` lies outside the
intersection with `mB`, so building from `[mA, mB]` succeeds. -/
def mA : CModel := ⟨"mA", [⟨"R1", 0, 10⟩, ⟨"R2", 0, 5⟩]⟩

/-- A model with only reaction `R1`. -/
def mB : CModel := ⟨"mB", [⟨"R1", 0, 10⟩]⟩

/-- A third model with only reaction `R1`, for the mode-equivalence
scenario. -/
def mCm : CModel := ⟨"mCm", [⟨"R1", 0, 10⟩]⟩

/-- A batch model whose reactions `R3`, `R4` are disjoint from the `[mA,
mB]` ensemble's base. -/
def mC2 : CModel := ⟨"mC2", [⟨"R3", 0, 7⟩, ⟨"R4", 0, 7⟩]⟩

/-- A batch model sharing reaction `R2` (the old ensemble's feature
component, with the matching base value) with the `[mA, mB]` ensemble. -/
def mC3 : CModel := ⟨"mC3", [⟨"R2", 0, 5⟩]⟩

/-- Filler model (reactions `R5`, `R6`) for the iterative-construction
scenario of claim C8. -/
def m5a : CModel := ⟨"m5a", [⟨"R5", 0, 1⟩, ⟨"R6", 0, 2⟩]⟩

/-- Filler model (reaction `R5`) for the iterative-construction scenario of
claim C8. -/
def m5b : CModel := ⟨"m5b", [⟨"R5", 0, 1⟩]⟩

/-- Filler model (reaction `R7`) for the iterative-construction scenario of
claim C8. -/
def m5c : CModel := ⟨"m5c", [⟨"R7", 0, 3⟩]⟩

/-- A batch model (reaction `R9`) disjoint from `eBad`'s base. -/
def mC9 : CModel := ⟨"mC9", [⟨"R9", 0, 5⟩]⟩

/-- The ensemble built from `[mA, mB]`: base `R1, R2`, one feature `R2_0`,
states `mA` true / `mB` false.  Extracted from the construction itself; the
theorems record `ensembleInitCore "e" (some [pj mA, pj mB]) = .ok eAB`. -/
def eAB : Ensemble :=
  match ensembleInitCore "e" (some [pj mA, pj mB]) with
  | .ok e => e
  | .error _ => emptyEnsemble "unreachable"

/-- The ensemble produced by concurrent construction from
`[mA, mB, mCm]`, extracted from the construction itself. -/
def eABC : Ensemble :=
  match ensembleInit "e" (some [pj mA, pj mB, pj mCm]) "concurrent" 1 with
  | .ok e => e
  | .error _ => emptyEnsemble "unreachable"

/-- The ensemble produced by iterative construction (join_size 2) from
`[mA, mB, m5a, m5b, m5c, PyObj.other]`, extracted from the construction
itself. -/
def e8 : Ensemble :=
  match ensembleInit "e"
      (some [pj mA, pj mB, pj m5a, pj m5b, pj m5c, PyObj.other])
      "iterative" 2 with
  | .ok e => e
  | .error _ => emptyEnsemble "unreachable"

/-- A hand-made inconsistent ensemble: member `w1` is simultaneously true
for the two variants `R1_0` (bounds 0, 10) and `R1_1` (bounds 0, 20) of the
same component `R1`. -/
def eBad : Ensemble :=
  ⟨"bad", .mkModel ⟨"b", [⟨"R1", 0, 10⟩]⟩,
   [⟨"R1_0", ⟨0, 10, "reaction", "R1"⟩, 0⟩,
    ⟨"R1_1", ⟨0, 20, "reaction", "R1"⟩, 1⟩],
   ⟨["R1_0", "R1_1"], [("w1", [true, true])]⟩⟩

/-- C1: the spec's concrete scenario — three single-reaction models whose
`R1` bounds are (0,10), (0,10), (0,20) — does not yield a base with `R1`,
one feature at `R1` for variant (0,20) and states true only for model 3;
instead construction raises `KeyError('model_identifier')`: every reaction
of the first model lies in the all-model intersection, so its
`variable_reactions` frame is empty and indexing it by the
`model_identifier` column fails.  (The code keys features on reactions
absent from the intersection, never on bound differences.) -/
theorem c1_concrete_scenario_raises :
    ensembleInit "e" (some [pj sc_m1, pj sc_m2, pj sc_m3]) "concurrent" 1
      = .error (Err.keyError "model_identifier") := by rfl

/-- C2: merging an ensemble that already has features (built from
`[mA, mB]`, base `R1, R2`) with a batch `[mC2]` (reactions `R3`, `R4`)
returns without error but leaves the ensemble exactly as it was: the base
is not the union (`R3` is missing) and the batch member `mC2` gets no
states row — `update_features_states` never assigns its merged frames back
to the ensemble. -/
theorem c2_merge_discards_batch :
    ensembleInitCore "e" (some [pj mA, pj mB]) = .ok eAB
      ∧ update_features_states eAB [pj mC2] = (eAB, none)
      ∧ eAB.baseIds.contains "R3" = false
      ∧ eAB.states.rows.any (fun r => r.1 == "mC2") = false := by
  exact ⟨rfl, rfl, rfl, rfl⟩

/-- C3: for a feature only in the old ensemble (`R2_0`, bounds (0,5)) at a
component shared by both bases (`R2`, whose value in the new base matches
those bounds exactly), the new member is never marked true: the merge
raises `KeyError('model_identifer')` — a misspelled column — as soon as the
loop over shared base reactions starts, before `_resolve_from_both_bases`
or `_find_feature_from_base` can run. -/
theorem c3_resolution_unreachable :
    ensembleInitCore "e" (some [pj mA, pj mB]) = .ok eAB
      ∧ update_features_states eAB [pj mC3]
          = (eAB, some (Err.keyError "model_identifer")) := by
  exact ⟨rfl, rfl⟩

/-- C4: on the model list `[mA, mB, mCm]` the two construction modes do not
produce the same logical content: "concurrent" succeeds (yielding `eABC`),
while "iterative" with join_size 1 raises `KeyError('model_identifer')`
inside `update_features_states` when the third model's base shares reaction
`R1` with the accumulated base. -/
theorem c4_modes_disagree :
    ensembleInit "e" (some [pj mA, pj mB, pj mCm]) "concurrent" 1 = .ok eABC
      ∧ ensembleInit "e" (some [pj mA, pj mB, pj mCm]) "iterative" 1
          = .error (Err.keyError "model_identifer") := by
  exact ⟨rfl, rfl⟩

/-- C6: building an ensemble from the two-element list `[A, A]` does not
succeed: every reaction of the first copy lies in the intersection, so the
first model's `variable_reactions` frame is empty and construction raises
`KeyError('model_identifier')`. -/
theorem c6_duplicate_list_raises :
    ensembleInit "e" (some [pj sc_m1, pj sc_m1]) "concurrent" 1
      = .error (Err.keyError "model_identifier") := by rfl

/-- C8: constructing with `join_method="iterative"` and `join_size=2` from
a six-element list whose last element is not a model succeeds and returns
an ensemble — no error of any kind is raised.  The effective `__init__`
(the second definition) never validates element types (the validating first
`__init__` is shadowed), and the iterative slicing `[(i+1)*join_size :
i+2*join_size]` skips the last element entirely. -/
theorem c8_nonmodel_accepted :
    ensembleInit "e"
        (some [pj mA, pj mB, pj m5a, pj m5b, pj m5c, PyObj.other])
        "iterative" 2 = .ok e8 := by rfl

/-- C9: an ensemble in which member `w1` is simultaneously true for two
variants of component `R1` is not detected: merging it with a batch raises
no error and returns the ensemble unchanged, still inconsistent.  No
`InconsistentStateError` (nor any mutual-exclusivity check) exists anywhere
in the source. -/
theorem c9_inconsistency_not_detected :
    eBad.statesExclusive = false
      ∧ update_features_states eBad [pj mC9] = (eBad, none) := by
  exact ⟨rfl, rfl⟩

/-- C10: constructing with a `None` or empty model list, under either valid
join method, raises no error and yields an ensemble whose base model is a
fresh empty model identified by `base_id + "_base_model"` and whose
features and states frames are both empty. -/
theorem c10_empty_construction (base_id : String) :
    ensembleInit base_id none "concurrent" 1
        = .ok ⟨base_id, .mkModel ⟨base_id ++ "_base_model", []⟩, [], emptyStates⟩
      ∧ ensembleInit base_id (some []) "concurrent" 1
        = .ok ⟨base_id, .mkModel ⟨base_id ++ "_base_model", []⟩, [], emptyStates⟩
      ∧ ensembleInit base_id none "iterative" 1
        = .ok ⟨base_id, .mkModel ⟨base_id ++ "_base_model", []⟩, [], emptyStates⟩
      ∧ ensembleInit base_id (some []) "iterative" 1
        = .ok ⟨base_id, .mkModel ⟨base_id ++ "_base_model", []⟩, [], emptyStates⟩ := by
  exact ⟨rfl, rfl, rfl, rfl⟩
/-- C7: atomicity of the merge on error — whenever
`update_features_states` lets an exception escape, the final state of the
target ensemble object is exactly its pre-merge state: every raise point
lies before the (single, final) assignment of the new base/features/states
attributes. -/
theorem c7_update_atomic_on_error (E : Ensemble) (ms : List PyObj)
    (E' : Ensemble) (err : Err)
    (h : update_features_states E ms = (E', some err)) : E' = E := by
  unfold update_features_states at h
  repeat' split at h
  all_goals simp only [ite_eq_iff, Prod.mk.injEq] at h
  all_goals first
    | exact h.1.symm
    | exact Option.noConfusion h.2
    | (rcases h with ⟨-, h1, -⟩ | ⟨-, h1, -⟩ <;> exact h1.symm)

/-- Witness for C7: merging the `[mA, mB]` ensemble with a batch containing
a non-model raises `AttributeError`, and the theorem yields that the
ensemble is unchanged. -/
theorem c7_witness :
    update_features_states eAB [PyObj.other]
        = (eAB, some (Err.attributeError "reactions"))
      ∧ (update_features_states eAB [PyObj.other]).1 = eAB :=
  ⟨rfl, c7_update_atomic_on_error eAB [PyObj.other]
      (update_features_states eAB [PyObj.other]).1
      (Err.attributeError "reactions") rfl⟩
/-- Reaction-id membership after one step of `addModelsToBase`: appending a
model's not-yet-present reactions makes the id set the union of the base's
and the model's. -/
theorem mem_reactionIds_step (base : CModel) (m : CModel) (r : String) :
    r ∈ (List.map (fun x => x.id) (base.reactions
        ++ m.reactions.filter
          (fun x => !(base.reactions.any (fun b => b.id == x.id)))))
      ↔ r ∈ base.reactionIds ∨ r ∈ m.reactionIds := by
  simp only [CModel.reactionIds, List.map_append, List.mem_append,
    List.mem_map, List.mem_filter, Bool.not_eq_true', List.any_eq_false,
    beq_iff_eq]
  constructor
  · rintro (h | ⟨x, ⟨hx, _⟩, rfl⟩)
    · exact .inl h
    · exact .inr ⟨x, hx, rfl⟩
  · rintro (h | ⟨x, hx, rfl⟩)
    · exact .inl h
    · by_cases hb : ∃ b ∈ base.reactions, b.id = x.id
      · obtain ⟨b, hbmem, hbid⟩ := hb
        exact .inl ⟨b, hbmem, hbid⟩
      · push_neg at hb
        exact .inr ⟨x, ⟨hx, fun b hbmem => hb b hbmem⟩, rfl⟩

/-- `addModelsToBase` on a list of actual models always succeeds, keeps the
base identifier, and the resulting reaction-id set is the union of the
running base's ids and every model's ids. -/
theorem addModelsToBase_models (ms : List CModel) : ∀ base : CModel,
    ∃ B, addModelsToBase (ms.map pj) base = .ok B ∧ B.id = base.id ∧
      ∀ r : String, r ∈ B.reactionIds
        ↔ r ∈ base.reactionIds ∨ ∃ m ∈ ms, r ∈ m.reactionIds := by
  induction ms with
  | nil =>
    intro base
    exact ⟨base, rfl, rfl, by simp⟩
  | cons m ms ih =>
    intro base
    obtain ⟨B, hB, hid, hmem⟩ := ih ⟨base.id,
      base.reactions ++ m.reactions.filter
        (fun x => !(base.reactions.any (fun b => b.id == x.id)))⟩
    refine ⟨B, ?_, hid, ?_⟩
    · simpa [addModelsToBase, pj, PyObj.reactionsAttr, Except.bind] using hB
    · intro r
      rw [hmem r]
      have hstep := mem_reactionIds_step base m r
      simp only [CModel.reactionIds] at hstep ⊢
      rw [hstep]
      simp only [List.mem_cons]
      constructor
      · rintro ((h | h) | ⟨m', hm', h⟩)
        · exact .inl h
        · exact .inr ⟨m, .inl rfl, h⟩
        · exact .inr ⟨m', .inr hm', h⟩
      · rintro (h | ⟨m', (rfl | hm'), h⟩)
        · exact .inl (.inl h)
        · exact .inl (.inr h)
        · exact .inr ⟨m', hm', h⟩
/-- Bind on a successful `Except` computation runs the continuation. -/
theorem exceptBind_ok {ε α β : Type} (a : α) (f : α → Except ε β) :
    (Except.ok a >>= f) = f a := rfl

/-- Bind on a failed `Except` computation propagates the error. -/
theorem exceptBind_error {ε α β : Type} (e : ε) (f : α → Except ε β) :
    ((Except.error e : Except ε α) >>= f) = Except.error e := rfl

/-- Unfolding of `set_features_states` on a list of two or more models. -/
theorem set_features_states_cons2 (ens : Ensemble) (a b : PyObj)
    (rest : List PyObj) :
    set_features_states ens (a :: b :: rest)
      = interFold (a :: b :: rest) [] >>= fun reaction_list =>
          (a :: b :: rest).foldlM (processModel reaction_list) ens := rfl

/-- Unfolding of `ensembleInitCore` on a nonempty model list. -/
theorem ensembleInitCore_cons (bid : String) (x : PyObj) (xs : List PyObj) :
    ensembleInitCore bid (some (x :: xs))
      = create_base_model (x :: xs) (bid ++ "_base_model") >>= fun base =>
          set_features_states ⟨bid, .mkModel base, [], emptyStates⟩ (x :: xs) :=
  rfl

/-- The loop body of `set_features_states` never changes the base model. -/
theorem processModel_base_model (rl : List String) (ens : Ensemble)
    (mobj : PyObj) (e' : Ensemble)
    (h : processModel rl ens mobj = .ok e') :
    e'.base_model = ens.base_model := by
  unfold processModel at h
  split at h
  · exact Except.noConfusion h
  · cases h
    rfl

/-- Folding the loop body over a model list never changes the base model. -/
theorem foldlM_processModel_base_model (rl : List String) (l : List PyObj) :
    ∀ (ens e' : Ensemble),
      l.foldlM (processModel rl) ens = .ok e' →
        e'.base_model = ens.base_model := by
  induction l with
  | nil =>
    intro ens e' h
    cases h
    rfl
  | cons x xs ih =>
    intro ens e' h
    simp only [List.foldlM] at h
    cases hp : processModel rl ens x with
    | error e =>
      rw [hp, exceptBind_error] at h
      exact Except.noConfusion h
    | ok e1 =>
      rw [hp, exceptBind_ok] at h
      exact (ih e1 e' h).trans (processModel_base_model rl ens x e1 hp)

/-- On a list that is not a singleton, `set_features_states` preserves the
base model of the ensemble it updates. -/
theorem set_features_states_base_model (ens : Ensemble) (a b : PyObj)
    (rest : List PyObj) (e' : Ensemble)
    (h : set_features_states ens (a :: b :: rest) = .ok e') :
    e'.base_model = ens.base_model := by
  rw [set_features_states_cons2] at h
  cases hi : interFold (a :: b :: rest) [] with
  | error e =>
    rw [hi, exceptBind_error] at h
    exact Except.noConfusion h
  | ok rl =>
    rw [hi, exceptBind_ok] at h
    exact foldlM_processModel_base_model rl (a :: b :: rest) _ e' h

/-- C5: construction yields a base structure holding exactly the union of
the input models' reaction identifiers: a reaction id occurs in the base
model if and only if it occurs in at least one input model. -/
theorem c5_base_is_union (bid : String) (ms : List CModel) (E : Ensemble)
    (h : ensembleInitCore bid (some (ms.map pj)) = .ok E) (r : String) :
    r ∈ E.baseIds ↔ ∃ m ∈ ms, r ∈ m.reactionIds := by
  match ms with
  | [] =>
    cases h
    simp [Ensemble.baseIds, emptyEnsemble, CModel.reactionIds]
  | [m] =>
    rw [List.map_cons, List.map_nil, ensembleInitCore_cons] at h
    obtain ⟨B, hB, -, -⟩ :=
      addModelsToBase_models [m] ⟨bid ++ "_base_model", []⟩
    rw [List.map_cons, List.map_nil] at hB
    rw [show create_base_model [pj m] (bid ++ "_base_model")
        = addModelsToBase [pj m] ⟨bid ++ "_base_model", []⟩ from rfl,
      hB, exceptBind_ok] at h
    cases h
    simp [Ensemble.baseIds, pj, CModel.reactionIds]
  | m1 :: m2 :: ms' =>
    rw [List.map_cons, List.map_cons, ensembleInitCore_cons] at h
    obtain ⟨B, hB, -, hmem⟩ :=
      addModelsToBase_models (m1 :: m2 :: ms') ⟨bid ++ "_base_model", []⟩
    rw [List.map_cons, List.map_cons] at hB
    rw [show create_base_model (pj m1 :: pj m2 :: ms'.map pj)
          (bid ++ "_base_model")
        = addModelsToBase (pj m1 :: pj m2 :: ms'.map pj)
          ⟨bid ++ "_base_model", []⟩ from rfl,
      hB, exceptBind_ok] at h
    have hbase := set_features_states_base_model
      ⟨bid, .mkModel B, [], emptyStates⟩ (pj m1) (pj m2) (ms'.map pj) E h
    have hids : E.baseIds = B.reactionIds := by
      rw [show E.baseIds
          = (match E.base_model with
             | .mkModel bm => bm.reactionIds
             | .other => []) from rfl, hbase]
    rw [hids, hmem r]
    simp [CModel.reactionIds]

/-- Witness for C5: in the ensemble built from `[mA, mB]`, reaction id
`R2` is in the base exactly because some input model carries it. -/
theorem c5_witness :
    "R2" ∈ eAB.baseIds ↔ ∃ m ∈ [mA, mB], "R2" ∈ m.reactionIds :=
  c5_base_is_union "e" [mA, mB] eAB rfl "R2"
